import Mathlib

/-
Verification of tensilelite/Tensile/TensileCreateLibrary.py.

We give a shallow embedding of the library-merge and build-pipeline
orchestrator of TensileCreateLibrary.py.  Python dicts are modelled as
insertion-ordered association lists, Python sets as membership lists,
and Python list.remove as List.erase (remove first occurrence by value
equality).  Functions of collaborating modules that are not part of this
file (MasterSolutionLibrary.merge, Solution.getKeyNoInternalArgs,
KernelWriterAssembly methods, ...) are taken as parameters or as record
fields, so every theorem holds for all of their behaviours, except where
a definition is explicitly marked as modelled from the spec.
-/

/-! # Basic Python-modelling helpers -/

/-- Characters stripped by Python str.strip() with no arguments. -/
def pyWhitespaceChar (c : Char) : Bool :=
  c = ' ' || c = '\t' || c = '\n' || c = '\r' || c = '\x0b' || c = '\x0c'

/-- len(s.strip()) == 0 in Python: the string is empty or whitespace-only. -/
def pyBlank (s : String) : Bool :=
  s.toList.all pyWhitespaceChar

/-- ASCII lower-casing of one character. -/
def lowerChar (c : Char) : Char :=
  if 'A' ≤ c ∧ c ≤ 'Z' then Char.ofNat (c.toNat + 32) else c

/-- os.path.normcase, modelled as case folding: on case-insensitive platforms
(the reading the spec takes) normcase lower-cases the path string. -/
def normcase (s : String) : String :=
  String.mk (s.toList.map lowerChar)

/-- os.path.join for two components. -/
def pyJoin (a b : String) : String :=
  a ++ "/" ++ b

/-- Lookup in an insertion-ordered association list (Python dict access). -/
def alookup {L : Type} : List (String × L) → String → Option L
  | [], _ => none
  | kv :: rest, k => if kv.1 = k then some kv.2 else alookup rest k

/-- Python dict assignment d[k] = v: overwrite in place if the key exists
(keeping its position), otherwise append a new entry. -/
def dictSet {L : Type} (m : List (String × L)) (k : String) (v : L) :
    List (String × L) :=
  if (m.map Prod.fst).contains k then
    m.map (fun kv => if kv.1 = k then (k, v) else kv)
  else m ++ [(k, v)]

/-- First-seen-order deduplication with an accumulator of already seen keys.
With f the key function this is the semantics of building a Python dict
keyed by f and keeping first occurrences. -/
def dedupByKeyAux {α β : Type} [DecidableEq β] (f : α → β) :
    List β → List α → List α
  | _, [] => []
  | seen, x :: xs =>
    if seen.contains (f x) then dedupByKeyAux f seen xs
    else x :: dedupByKeyAux f (seen ++ [f x]) xs

/-- First-seen-order deduplication by a key function. -/
def dedupByKey {α β : Type} [DecidableEq β] (f : α → β) (l : List α) : List α :=
  dedupByKeyAux f [] l

/-- Python dict.fromkeys(l): keep the first occurrence of each value,
in first-seen order. -/
def pyDedup {α : Type} [DecidableEq α] (l : List α) : List α :=
  dedupByKey id l

/-! ## Helper lemmas about the Python-modelling primitives -/

theorem alookup_eq_none {L : Type} (m : List (String × L)) (k : String)
    (h : alookup m k = none) : k ∉ m.map Prod.fst := by
  induction m with
  | nil => simp
  | cons kv rest ih =>
    simp only [alookup] at h
    by_cases hk : kv.1 = k
    · simp [hk] at h
    · simp only [if_neg hk] at h
      simp only [List.map_cons, List.mem_cons]
      rintro (rfl | hmem)
      · exact hk rfl
      · exact ih h hmem

theorem mem_dedupByKeyAux {α β : Type} [DecidableEq β] (f : α → β)
    (seen : List β) (l : List α) (a : α) :
    a ∈ dedupByKeyAux f seen l → a ∈ l := by
  induction l generalizing seen with
  | nil => simp [dedupByKeyAux]
  | cons x xs ih =>
    simp only [dedupByKeyAux]
    by_cases hc : seen.contains (f x)
    · simp only [if_pos hc]
      intro h
      exact List.mem_cons_of_mem _ (ih _ h)
    · simp only [if_neg hc, List.mem_cons]
      rintro (rfl | h)
      · exact Or.inl rfl
      · exact Or.inr (ih _ h)

/-- List.contains agrees with list membership. -/
theorem contains_iff_mem {α : Type} [DecidableEq α] (l : List α) (a : α) :
    l.contains a = true ↔ a ∈ l :=
  List.elem_iff

theorem mem_of_mem_pyDedup {α : Type} [DecidableEq α] (l : List α) (a : α) :
    a ∈ pyDedup l → a ∈ l :=
  mem_dedupByKeyAux id [] l a

theorem pyDedup_mem_iff {α : Type} [DecidableEq α] (l : List α) (a : α) :
    a ∈ pyDedup l ↔ a ∈ l := by
  constructor
  · exact mem_of_mem_pyDedup l a
  · unfold pyDedup dedupByKey
    have key : ∀ (seen : List α) (l : List α) (a : α), a ∈ l →
        ¬ seen.contains a → a ∈ dedupByKeyAux id seen l := by
      intro seen l
      induction l generalizing seen with
      | nil => simp
      | cons x xs ih =>
        intro a ha hseen
        simp only [dedupByKeyAux, id]
        rcases List.mem_cons.mp ha with rfl | hmem
        · simp only [if_neg hseen]
          exact List.mem_cons_self _ _
        · by_cases hc : seen.contains x
          · simp only [if_pos hc]
            exact ih seen a hmem hseen
          · simp only [if_neg hc]
            by_cases hax : a = x
            · subst hax
              exact List.mem_cons_self _ _
            · refine List.mem_cons_of_mem _ (ih _ a hmem ?_)
              intro hc2
              rcases List.mem_append.mp ((contains_iff_mem _ _).mp hc2) with h | h
              · exact hseen ((contains_iff_mem _ _).mpr h)
              · exact hax (by simpa using h)
    intro ha
    refine key [] l a ha ?_
    simp

/-! # Claim C1: fallback redistribution (generateLogicDataAndSolutions)

The library type of MasterSolutionLibrary lives in SolutionLibrary.py,
outside this file's source; the merge methods likewise.  The key-level
structure of generateLogicDataAndSolutions (lines 637-708) is embedded
generically: L stands for MasterSolutionLibrary, mergeIdx for
lib.merge(newLibrary, nextSolIndex) (returning the new high-water index)
and mergeLib for the index-less lib.merge(other) used for the full
library and for fallback redistribution. -/

/-- One iteration of the loading loop of generateLogicDataAndSolutions
(lines 660-677): state is (masterLibraries, fullMasterLibrary, nextSolIndex);
a tuple is (architectureName, newLibrary).  Empty architecture names are
skipped. -/
def genLogicStep {L : Type} (separateArchitectures lazyLibraryLoading : Bool)
    (mergeIdx : L → L → Nat → L × Nat) (mergeLib : L → L → L)
    (st : List (String × L) × Option L × Nat) (tup : String × L) :
    List (String × L) × Option L × Nat :=
  let m := st.1
  let full := st.2.1
  let nextSolIndex := st.2.2
  if tup.1 = "" then st
  else if separateArchitectures || lazyLibraryLoading then
    match alookup m tup.1 with
    | some existing =>
      let r := mergeIdx existing tup.2 nextSolIndex
      (dictSet m tup.1 r.1, full, r.2)
    | none => (m ++ [(tup.1, tup.2)], full, nextSolIndex)
  else
    match full with
    | none => (m, some tup.2, nextSolIndex)
    | some f => (m, some (mergeLib f tup.2), nextSolIndex)

/-- Fallback redistribution (lines 685-690): if a library keyed "fallback"
exists, merge it into every other architecture's library and delete the
"fallback" entry. -/
def applyFallback {L : Type} (mergeLib : L → L → L) (m : List (String × L)) :
    List (String × L) :=
  match alookup m "fallback" with
  | none => m
  | some fb =>
    m.filterMap (fun kv =>
      if kv.1 = "fallback" then none else some (kv.1, mergeLib kv.2 fb))

/-- The masterLibraries / fullMasterLibrary construction of
generateLogicDataAndSolutions (lines 637-708): consume all logic tuples,
then redistribute the fallback library in separated/lazy mode. -/
def generateLogicMasterLibraries {L : Type}
    (separateArchitectures lazyLibraryLoading : Bool)
    (mergeIdx : L → L → Nat → L × Nat) (mergeLib : L → L → L)
    (tuples : List (String × L)) : List (String × L) × Option L :=
  let st := tuples.foldl
    (genLogicStep separateArchitectures lazyLibraryLoading mergeIdx mergeLib)
    ([], none, 0)
  if separateArchitectures || lazyLibraryLoading then
    (applyFallback mergeLib st.1, st.2.1)
  else (st.1, st.2.1)

theorem applyFallback_no_fallback {L : Type} (mergeLib : L → L → L)
    (m : List (String × L)) :
    "fallback" ∉ (applyFallback mergeLib m).map Prod.fst := by
  unfold applyFallback
  cases h : alookup m "fallback" with
  | none => exact alookup_eq_none m "fallback" h
  | some fb =>
    intro hmem
    simp only [List.map_filterMap, List.mem_filterMap] at hmem
    obtain ⟨kv, _, hkv⟩ := hmem
    by_cases hk : kv.1 = "fallback"
    · simp [hk] at hkv
    · simp only [if_neg hk, Option.map_some'] at hkv
      exact hk (by simpa using hkv)

/-- Claim C1: in separated-architectures or lazy-loading mode, after all
logic files are consumed the fallback library (if any) is merged into every
other architecture's MasterLibrary and removed, so the masterLibraries
mapping returned by generateLogicDataAndSolutions never contains a key
equal to "fallback". -/
theorem c1_fallback_removed {L : Type}
    (separateArchitectures lazyLibraryLoading : Bool)
    (mergeIdx : L → L → Nat → L × Nat) (mergeLib : L → L → L)
    (tuples : List (String × L))
    (h : separateArchitectures = true ∨ lazyLibraryLoading = true) :
    "fallback" ∉ (generateLogicMasterLibraries separateArchitectures
      lazyLibraryLoading mergeIdx mergeLib tuples).1.map Prod.fst := by
  unfold generateLogicMasterLibraries
  have hcond : (separateArchitectures || lazyLibraryLoading) = true := by
    rcases h with h | h <;> simp [h]
  simp only [hcond, if_pos]
  exact applyFallback_no_fallback mergeLib _

/-- Witness for c1_fallback_removed at a concrete run that does contain a
fallback tuple. -/
theorem c1_fallback_removed_witness :
    "fallback" ∉ (generateLogicMasterLibraries (L := Nat) true false
      (fun a _ n => (a, n)) (fun a _ => a)
      [("gfx900", 0), ("fallback", 1)]).1.map Prod.fst :=
  c1_fallback_removed true false _ _ _ (Or.inl rfl)

/-! # Data model

The record types below carry exactly the attributes the orchestrator reads.
Methods of collaborating modules (Solution.getKeyNoInternalArgs,
KernelWriterAssembly.getKernelName, solution.getKernels,
solution.getHelperKernelObjects, ko.getKernelName) are modelled as fields
holding their values, so the theorems hold for every behaviour of those
externals. -/

/-- One generation attempt's outcome, the 5-tuple
(err, src, header, kernelName, filename) returned by processKernelSource. -/
structure BuildResult where
  err : Int
  src : String
  header : String
  kernelName : String
  filename : Option String
deriving DecidableEq, Repr

/-- A kernel descriptor as the orchestrator sees it.  kKey holds
Solution.getKeyNoInternalArgs(kernel), kernelName holds
writer.getKernelName(kernel), solutionIndex and solutionNameMin hold
kernel["SolutionIndex"] and kernel["SolutionNameMin"], codeObjectFile holds
kernel._state.get("codeObjectFile", None). -/
structure Kernel where
  kKey : String
  kernelName : String
  solutionIndex : Nat
  solutionNameMin : String
  codeObjectFile : Option String
deriving DecidableEq, Repr

/-- Modelled from the spec: KernelHelperObject (spec section 3) is an
auxiliary solution-independent kernel whose identity is its generated name
("Deduplicated by its generated name"); the concrete helper-kernel classes
live outside this file's source, so the record carries exactly the
identity-defining attribute, the generated kernel name. -/
structure KernelHelperObject where
  kernelName : String
deriving DecidableEq, Repr

/-- ko.getKernelName() of a kernel helper object. -/
def KernelHelperObject.getKernelName (ko : KernelHelperObject) : String :=
  ko.kernelName

/-- A solution record; kernels holds solution.getKernels() and helpers
holds solution.getHelperKernelObjects(). -/
structure Solution where
  sid : Nat
  kernels : List Kernel
  helpers : List KernelHelperObject
deriving DecidableEq, Repr

/-- The global parameters the embedded functions read. -/
structure GlobalParams where
  mergeFiles : Bool
  numMergedFiles : Nat
  lazyLibraryLoading : Bool
deriving DecidableEq, Repr

/-! # Claim C6: addxnack (buildObjectFileNames, lines 511-517) -/

/-- Substring test, Python's infix containment test on strings
(arch in xnack), on character lists. -/
def containsSub (needle : List Char) : List Char → Bool
  | [] => needle.isEmpty
  | c :: cs => needle.isPrefixOf (c :: cs) || containsSub needle cs

/-- re.search("gfx.*$", name): the suffix of name starting at the first
occurrence of "gfx" (no newlines in library names), or none when the
regex does not match. -/
def findGfxSuffix : List Char → Option (List Char)
  | [] => none
  | c :: cs =>
    if ['g', 'f', 'x'].isPrefixOf (c :: cs) then some (c :: cs)
    else findGfxSuffix cs

/-- addxnack(name, ext) (lines 511-517): returns names for all xnack
versions.  none models the AttributeError raised by .group() when the
regex does not match.  sourceArchs is the supported source architecture
set computed by splitArchs(). -/
def addxnack (sourceArchs : List String) (name ext : String) :
    Option (List String) :=
  match findGfxSuffix name.toList with
  | none => none
  | some archL =>
    if sourceArchs.contains (String.mk archL) then some [name ++ ext]
    else some ((sourceArchs.filter (fun x => containsSub archL x.toList)).map
      (fun x => name ++ String.mk (x.toList.drop archL.length) ++ ext))

/-- Counterexample to claim C6: with base name Kernel_gfx900 and supported
targets {gfx900, gfx906}, the suffix gfx900 is an exact member, so addxnack
yields only Kernel_gfx900.hsaco, not the claimed two-element set. -/
theorem c6_counterexample :
    addxnack ["gfx900", "gfx906"] "Kernel_gfx900" ".hsaco"
        = some ["Kernel_gfx900.hsaco"] ∧
      addxnack ["gfx900", "gfx906"] "Kernel_gfx900" ".hsaco"
        ≠ some ["Kernel_gfx900.hsaco", "Kernel_gfx906.hsaco"] := by
  constructor
  · rfl
  · decide

/-- Claim C6 (amended): an exact supported-target suffix yields exactly the
one name plus extension; a non-exact suffix yields one variant per
supported target containing the suffix, completing it with the target's
remainder: base name Kernel_gfx90 (whose suffix gfx90 is not an exact
member) with targets {gfx900, gfx906} yields exactly
{Kernel_gfx900.hsaco, Kernel_gfx906.hsaco}. -/
theorem c6_addxnack_amended :
    (∀ (sourceArchs : List String) (name ext : String) (archL : List Char),
      findGfxSuffix name.toList = some archL →
      sourceArchs.contains (String.mk archL) = true →
      addxnack sourceArchs name ext = some [name ++ ext]) ∧
    addxnack ["gfx900", "gfx906"] "Kernel_gfx90" ".hsaco"
      = some ["Kernel_gfx900.hsaco", "Kernel_gfx906.hsaco"] := by
  constructor
  · intro sourceArchs name ext archL hfind hmem
    unfold addxnack
    rw [hfind]
    exact if_pos hmem
  · rfl

/-- Witness for c6_addxnack_amended: the exact-match branch evaluated at a
concrete name and architecture set. -/
theorem c6_addxnack_amended_witness :
    addxnack ["gfx900", "gfx906"] "Kernel_gfx900" ".hsaco"
      = some ["Kernel_gfx900" ++ ".hsaco"] :=
  c6_addxnack_amended.1 ["gfx900", "gfx906"] "Kernel_gfx900" ".hsaco"
    "gfx900".toList (by rfl) (by rfl)

/-! # Claims C7 and C8: generateKernelObjectsFromSolutions (lines 610-631) -/

/-- Accumulated state of generateKernelObjectsFromSolutions: the output
kernel list, the helper-object list, and the two Python sets (modelled as
insertion-ordered membership lists). -/
structure GenKernelsState where
  kernels : List Kernel
  kernelHelperObjs : List KernelHelperObject
  kernelNames : List String
  kernelHelperNames : List String
deriving DecidableEq, Repr

/-- Python set.add: insert if not already present. -/
def setAdd (s : List String) (x : String) : List String :=
  if s.contains x then s else s ++ [x]

/-- Inner loop body (lines 619-623): append the kernel the first time its
key (Solution.getKeyNoInternalArgs) is seen; ignore later occurrences. -/
def addKernelIfNew (p : List Kernel × List String) (k : Kernel) :
    List Kernel × List String :=
  if p.2.contains k.kKey then p else (p.1 ++ [k], p.2 ++ [k.kKey])

/-- One iteration of the solution loop (lines 617-627). -/
def genKernelsStepSolution (st : GenKernelsState) (s : Solution) :
    GenKernelsState :=
  let p := s.kernels.foldl addKernelIfNew (st.kernels, st.kernelNames)
  { kernels := p.1
    kernelNames := p.2
    kernelHelperObjs := st.kernelHelperObjs ++ s.helpers
    kernelHelperNames :=
      s.helpers.foldl (fun ns h => setAdd ns h.kernelName)
        st.kernelHelperNames }

/-- generateKernelObjectsFromSolutions (lines 610-631): walk every
solution's kernels and helper objects, then dedupe the helper objects via
dict.fromkeys while preserving order. -/
def generateKernelObjectsFromSolutions (solutions : List Solution) :
    List Kernel × List KernelHelperObject × List String :=
  let st := solutions.foldl genKernelsStepSolution ⟨[], [], [], []⟩
  (st.kernels, pyDedup st.kernelHelperObjs, st.kernelHelperNames)

theorem addKernelIfNew_foldl (l : List Kernel) (ks : List Kernel)
    (ns : List String) :
    l.foldl addKernelIfNew (ks, ns)
      = (ks ++ dedupByKeyAux Kernel.kKey ns l,
         ns ++ (dedupByKeyAux Kernel.kKey ns l).map Kernel.kKey) := by
  induction l generalizing ks ns with
  | nil => simp [dedupByKeyAux]
  | cons x xs ih =>
    simp only [List.foldl_cons, addKernelIfNew, dedupByKeyAux]
    by_cases hc : ns.contains x.kKey
    · simp only [if_pos hc]
      exact ih ks ns
    · simp only [if_neg hc]
      rw [ih (ks ++ [x]) (ns ++ [x.kKey])]
      simp [List.append_assoc]

theorem genKernels_fold_kernels (sols : List Solution) (st : GenKernelsState) :
    ((sols.foldl genKernelsStepSolution st).kernels,
      (sols.foldl genKernelsStepSolution st).kernelNames)
      = (sols.flatMap Solution.kernels).foldl addKernelIfNew
          (st.kernels, st.kernelNames) := by
  induction sols generalizing st with
  | nil => simp
  | cons s ss ih =>
    rw [List.foldl_cons, List.flatMap_cons, List.foldl_append, ih]
    rfl

theorem genKernels_fold_helpers (sols : List Solution) (st : GenKernelsState) :
    (sols.foldl genKernelsStepSolution st).kernelHelperObjs
      = st.kernelHelperObjs ++ sols.flatMap Solution.helpers := by
  induction sols generalizing st with
  | nil => simp
  | cons s ss ih =>
    rw [List.foldl_cons, List.flatMap_cons, ih]
    simp [genKernelsStepSolution, List.append_assoc]

theorem dedupByKeyAux_key_not_seen {α β : Type} [DecidableEq β] (f : α → β) :
    ∀ (seen : List β) (l : List α) (a : α),
      a ∈ dedupByKeyAux f seen l → f a ∉ seen := by
  intro seen l
  induction l generalizing seen with
  | nil => simp [dedupByKeyAux]
  | cons x xs ih =>
    intro a
    simp only [dedupByKeyAux]
    by_cases hc : seen.contains (f x)
    · simp only [if_pos hc]
      exact ih seen a
    · simp only [if_neg hc, List.mem_cons]
      rintro (rfl | h)
      · intro hmem
        exact hc ((contains_iff_mem _ _).mpr hmem)
      · intro hmem
        exact ih (seen ++ [f x]) a h (List.mem_append_left _ hmem)

theorem dedupByKeyAux_pairwise {α β : Type} [DecidableEq β] (f : α → β) :
    ∀ (seen : List β) (l : List α),
      (dedupByKeyAux f seen l).Pairwise (fun a b => f a ≠ f b) := by
  intro seen l
  induction l generalizing seen with
  | nil => simp [dedupByKeyAux]
  | cons x xs ih =>
    simp only [dedupByKeyAux]
    by_cases hc : seen.contains (f x)
    · simp only [if_pos hc]
      exact ih seen
    · simp only [if_neg hc]
      refine List.Pairwise.cons ?_ (ih (seen ++ [f x]))
      intro b hb heq
      have := dedupByKeyAux_key_not_seen f (seen ++ [f x]) xs b hb
      exact this (List.mem_append_right _ (by simp [heq]))

/-- Claim C8: kernel extraction adds a KernelDescriptor the first time its
kernelKey is seen while walking every solution's kernels in order, and
ignores later kernels with an equal key; the output is the first-seen
deduplication by key of the full kernel walk, so no two output entries
share a kernelKey. -/
theorem c8_kernel_dedup (solutions : List Solution) :
    (generateKernelObjectsFromSolutions solutions).1
        = dedupByKey Kernel.kKey (solutions.flatMap Solution.kernels) ∧
      (generateKernelObjectsFromSolutions solutions).1.Pairwise
        (fun a b => a.kKey ≠ b.kKey) := by
  have h1 : (generateKernelObjectsFromSolutions solutions).1
      = dedupByKey Kernel.kKey (solutions.flatMap Solution.kernels) := by
    have h2 := (Prod.ext_iff.mp (genKernels_fold_kernels solutions ⟨[], [], [], []⟩)).1
    dsimp only at h2
    show (solutions.foldl genKernelsStepSolution ⟨[], [], [], []⟩).kernels = _
    rw [h2, addKernelIfNew_foldl]
    simp [dedupByKey]
  refine ⟨h1, ?_⟩
  rw [h1]
  exact dedupByKeyAux_pairwise Kernel.kKey [] _

/-- Witness for c8_kernel_dedup: a concrete two-solution run in which the
second solution repeats the first solution's kernel key. -/
theorem c8_kernel_dedup_witness :
    (generateKernelObjectsFromSolutions
        [⟨0, [⟨"k1", "n1", 0, "s0", none⟩], []⟩,
         ⟨1, [⟨"k1", "n1x", 1, "s1", none⟩, ⟨"k2", "n2", 1, "s1", none⟩], []⟩]).1
        = dedupByKey Kernel.kKey
            ([⟨0, [⟨"k1", "n1", 0, "s0", none⟩], []⟩,
              ⟨1, [⟨"k1", "n1x", 1, "s1", none⟩, ⟨"k2", "n2", 1, "s1", none⟩],
                []⟩].flatMap Solution.kernels) ∧
      (generateKernelObjectsFromSolutions
        [⟨0, [⟨"k1", "n1", 0, "s0", none⟩], []⟩,
         ⟨1, [⟨"k1", "n1x", 1, "s1", none⟩, ⟨"k2", "n2", 1, "s1", none⟩],
           []⟩]).1.Pairwise (fun a b => a.kKey ≠ b.kKey) :=
  c8_kernel_dedup _

/-- Claim C7: kernel helper objects collected across all solutions are
deduplicated by dict.fromkeys in first-seen order; with helper-object
identity given by the generated kernel name (modelled from the spec), the
helper-object occurrence order A, B, A, C yields exactly A, B, C. -/
theorem c7_helper_dedup :
    (∀ solutions : List Solution,
      (generateKernelObjectsFromSolutions solutions).2.1
        = pyDedup (solutions.flatMap Solution.helpers)) ∧
      (generateKernelObjectsFromSolutions
          [⟨0, [], [⟨"A"⟩, ⟨"B"⟩]⟩, ⟨1, [], [⟨"A"⟩, ⟨"C"⟩]⟩]).2.1
        = [⟨"A"⟩, ⟨"B"⟩, ⟨"C"⟩] := by
  constructor
  · intro solutions
    show pyDedup
      (solutions.foldl genKernelsStepSolution ⟨[], [], [], []⟩).kernelHelperObjs = _
    rw [genKernels_fold_helpers solutions ⟨[], [], [], []⟩]
    rfl
  · rfl

/-! # Claim C9: buildKernelSourceAndHeaderFiles (lines 154-230)

File writing itself is I/O; the embedded function computes the data the
writing loop consumes: the error dictionary kernelsWithBuildErrs, the
filesToWrite grouping, the kernelsToWrite list and the validKernelCount
round-robin counter. -/

/-- One (err, src, header, kernelName) entry of a filesToWrite group. -/
structure FileEntry where
  err : Int
  src : String
  header : String
  kernelName : String
deriving DecidableEq, Repr

/-- The state built by the scanning loop of buildKernelSourceAndHeaderFiles. -/
structure BuildFilesState where
  errMap : List (String × Int)
  files : List (String × List FileEntry)
  kernelsToWrite : List FileEntry
  validKernelCount : Nat
deriving DecidableEq, Repr

/-- defaultdict(list) append: filesToWrite[key].append(entry). -/
def dictAppendEntry (m : List (String × List FileEntry)) (k : String)
    (e : FileEntry) : List (String × List FileEntry) :=
  if (m.map Prod.fst).contains k then
    m.map (fun kv => if kv.1 = k then (kv.1, kv.2 ++ [e]) else kv)
  else m ++ [(k, [e])]

/-- One iteration of the scanning loop (lines 173-198).  Error recording
happens before the empty-source check; empty (whitespace-only) kernels are
then skipped entirely, so they reach no file group and do not advance
validKernelCount.  The merged-file suffix renders the round-robin index in
decimal (the source concatenates the int onto the "Kernels" stem). -/
def buildFilesStep (gp : GlobalParams) (outputPath : String)
    (st : BuildFilesState) (r : BuildResult) : BuildFilesState :=
  let errMap :=
    if r.err ≠ 0 then dictSet st.errMap r.kernelName r.err else st.errMap
  if pyBlank r.src then { st with errMap := errMap }
  else
    let entry : FileEntry := ⟨r.err, r.src, r.header, r.kernelName⟩
    let key :=
      if (r.filename.getD "") ≠ "" then
        pyJoin (normcase outputPath) (r.filename.getD "")
      else if gp.mergeFiles then
        let kernelSuffix :=
          if gp.numMergedFiles > 1 then
            toString (st.validKernelCount % gp.numMergedFiles)
          else ""
        pyJoin (normcase outputPath) ("Kernels" ++ kernelSuffix)
      else pyJoin (normcase outputPath) r.kernelName
    { errMap := errMap
      files := dictAppendEntry st.files key entry
      kernelsToWrite := st.kernelsToWrite ++ [entry]
      validKernelCount := st.validKernelCount + 1 }

/-- The ensure-one-kernel-file step (lines 201-206). -/
def ensureKernelFile (gp : GlobalParams) (outputPath : String)
    (st : BuildFilesState) : BuildFilesState :=
  if gp.lazyLibraryLoading || (gp.mergeFiles && st.kernelsToWrite.isEmpty) then
    let kernelSuffix := if gp.numMergedFiles > 1 then "0" else ""
    { st with
        files := dictSet st.files
          (pyJoin (normcase outputPath) ("Kernels" ++ kernelSuffix)) [] }
  else st

/-- buildKernelSourceAndHeaderFiles (lines 154-230) up to the data the
file-writing loop consumes. -/
def buildKernelSourceAndHeaderFiles (gp : GlobalParams) (outputPath : String)
    (results : List BuildResult) : BuildFilesState :=
  ensureKernelFile gp outputPath
    (results.foldl (buildFilesStep gp outputPath) ⟨[], [], [], 0⟩)

theorem buildFilesStep_blank (gp : GlobalParams) (outputPath : String)
    (st : BuildFilesState) (r : BuildResult) (h : pyBlank r.src = true) :
    (buildFilesStep gp outputPath st r).files = st.files ∧
      (buildFilesStep gp outputPath st r).kernelsToWrite = st.kernelsToWrite ∧
      (buildFilesStep gp outputPath st r).validKernelCount
        = st.validKernelCount := by
  simp [buildFilesStep, h]

theorem buildFilesStep_nonblank (gp : GlobalParams) (outputPath : String)
    (st1 st2 : BuildFilesState) (r : BuildResult) (h : pyBlank r.src = false)
    (hf : st1.files = st2.files)
    (hk : st1.kernelsToWrite = st2.kernelsToWrite)
    (hc : st1.validKernelCount = st2.validKernelCount) :
    (buildFilesStep gp outputPath st1 r).files
        = (buildFilesStep gp outputPath st2 r).files ∧
      (buildFilesStep gp outputPath st1 r).kernelsToWrite
        = (buildFilesStep gp outputPath st2 r).kernelsToWrite ∧
      (buildFilesStep gp outputPath st1 r).validKernelCount
        = (buildFilesStep gp outputPath st2 r).validKernelCount := by
  simp [buildFilesStep, h, hf, hk, hc]

theorem buildFiles_foldl_filter (gp : GlobalParams) (outputPath : String)
    (results : List BuildResult) :
    ∀ st1 st2 : BuildFilesState,
      st1.files = st2.files →
      st1.kernelsToWrite = st2.kernelsToWrite →
      st1.validKernelCount = st2.validKernelCount →
      (results.foldl (buildFilesStep gp outputPath) st1).files
          = ((results.filter (fun r => !pyBlank r.src)).foldl
              (buildFilesStep gp outputPath) st2).files ∧
        (results.foldl (buildFilesStep gp outputPath) st1).kernelsToWrite
          = ((results.filter (fun r => !pyBlank r.src)).foldl
              (buildFilesStep gp outputPath) st2).kernelsToWrite ∧
        (results.foldl (buildFilesStep gp outputPath) st1).validKernelCount
          = ((results.filter (fun r => !pyBlank r.src)).foldl
              (buildFilesStep gp outputPath) st2).validKernelCount := by
  induction results with
  | nil =>
    intro st1 st2 hf hk hc
    exact ⟨hf, hk, hc⟩
  | cons r rs ih =>
    intro st1 st2 hf hk hc
    by_cases hb : pyBlank r.src = true
    · rw [List.foldl_cons, List.filter_cons]
      have hbb : (!pyBlank r.src) = false := by simp [hb]
      rw [hbb]
      simp only [Bool.false_eq_true, if_false]
      obtain ⟨h1, h2, h3⟩ := buildFilesStep_blank gp outputPath st1 r hb
      exact ih _ st2 (h1.trans hf) (h2.trans hk) (h3.trans hc)
    · have hb2 : pyBlank r.src = false := by
        cases hx : pyBlank r.src
        · rfl
        · exact absurd hx hb
      rw [List.foldl_cons, List.filter_cons]
      have hbb : (!pyBlank r.src) = true := by simp [hb2]
      rw [hbb]
      simp only [if_true, List.foldl_cons]
      obtain ⟨h1, h2, h3⟩ :=
        buildFilesStep_nonblank gp outputPath st1 st2 r hb2 hf hk hc
      exact ih _ _ h1 h2 h3

theorem ensureKernelFile_congr (gp : GlobalParams) (outputPath : String)
    (st1 st2 : BuildFilesState)
    (hf : st1.files = st2.files)
    (hk : st1.kernelsToWrite = st2.kernelsToWrite)
    (hc : st1.validKernelCount = st2.validKernelCount) :
    (ensureKernelFile gp outputPath st1).files
        = (ensureKernelFile gp outputPath st2).files ∧
      (ensureKernelFile gp outputPath st1).kernelsToWrite
        = (ensureKernelFile gp outputPath st2).kernelsToWrite ∧
      (ensureKernelFile gp outputPath st1).validKernelCount
        = (ensureKernelFile gp outputPath st2).validKernelCount := by
  unfold ensureKernelFile
  rw [hk]
  by_cases hcond : (gp.lazyLibraryLoading
      || (gp.mergeFiles && st2.kernelsToWrite.isEmpty)) = true
  · simp only [hcond, if_true]
    refine ⟨?_, ?_, ?_⟩ <;> simp [hf, hk, hc]
  · simp only [Bool.not_eq_true] at hcond
    simp only [hcond, Bool.false_eq_true, if_false]
    exact ⟨hf, hk, hc⟩

theorem ensureKernelFile_errMap (gp : GlobalParams) (outputPath : String)
    (st : BuildFilesState) :
    (ensureKernelFile gp outputPath st).errMap = st.errMap := by
  unfold ensureKernelFile
  by_cases hcond : (gp.lazyLibraryLoading
      || (gp.mergeFiles && st.kernelsToWrite.isEmpty)) = true
  · simp only [hcond, if_true]
  · simp only [Bool.not_eq_true] at hcond
    simp only [hcond, Bool.false_eq_true, if_false]

theorem dictSet_keys {L : Type} (m : List (String × L)) (k : String) (v : L) :
    (dictSet m k v).map Prod.fst
      = if (m.map Prod.fst).contains k then m.map Prod.fst
        else m.map Prod.fst ++ [k] := by
  unfold dictSet
  by_cases hc : (m.map Prod.fst).contains k
  · simp only [if_pos hc, List.map_map]
    apply List.map_congr_left
    intro kv _
    by_cases hk : kv.1 = k
    · simp [Function.comp, hk]
    · simp [Function.comp, hk]
  · simp [if_neg hc]

theorem dictSet_keys_mem {L : Type} (m : List (String × L)) (k : String)
    (v : L) (a : String) :
    a ∈ (dictSet m k v).map Prod.fst ↔ a ∈ m.map Prod.fst ∨ a = k := by
  rw [dictSet_keys]
  by_cases hc : (m.map Prod.fst).contains k
  · simp only [if_pos hc]
    constructor
    · exact fun h => Or.inl h
    · rintro (h | rfl)
      · exact h
      · exact (contains_iff_mem _ _).mp hc
  · simp [if_neg hc]

theorem buildFiles_errMap_mem (gp : GlobalParams) (outputPath : String)
    (results : List BuildResult) :
    ∀ (st : BuildFilesState) (a : String),
      a ∈ (results.foldl (buildFilesStep gp outputPath) st).errMap.map Prod.fst
        ↔ a ∈ st.errMap.map Prod.fst ∨
            ∃ r ∈ results, r.kernelName = a ∧ r.err ≠ 0 := by
  induction results with
  | nil => simp
  | cons r rs ih =>
    intro st a
    rw [List.foldl_cons, ih]
    have hstep : (buildFilesStep gp outputPath st r).errMap
        = if r.err ≠ 0 then dictSet st.errMap r.kernelName r.err
          else st.errMap := by
      unfold buildFilesStep
      by_cases hb : pyBlank r.src <;> simp [hb]
    rw [hstep]
    rw [List.exists_mem_cons_iff]
    by_cases he : r.err = 0
    · rw [if_neg (by simp [he])]
      simp only [he, ne_eq, not_true_eq_false, and_false, false_or]
    · rw [if_pos he]
      rw [dictSet_keys_mem]
      constructor
      · rintro ((h | rfl) | h)
        · exact Or.inl h
        · exact Or.inr (Or.inl ⟨rfl, he⟩)
        · exact Or.inr (Or.inr h)
      · rintro (h | (⟨heq, _⟩ | h))
        · exact Or.inl (Or.inl h)
        · exact Or.inl (Or.inr heq.symm)
        · exact Or.inr h

/-- Claim C9: a generation result whose source text is empty or
whitespace-only contributes no file entry (skipped before any grouping,
without advancing the round-robin counter): the file grouping, the
kernelsToWrite list and validKernelCount computed from all results equal
those computed from the non-blank results alone; and a kernel name is
recorded in kernelsWithBuildErrs exactly when some result carries that
name with a nonzero error code. -/
theorem c9_blank_kernels (gp : GlobalParams) (outputPath : String)
    (results : List BuildResult) :
    ((buildKernelSourceAndHeaderFiles gp outputPath results).files
        = (buildKernelSourceAndHeaderFiles gp outputPath
            (results.filter (fun r => !pyBlank r.src))).files ∧
      (buildKernelSourceAndHeaderFiles gp outputPath results).kernelsToWrite
        = (buildKernelSourceAndHeaderFiles gp outputPath
            (results.filter (fun r => !pyBlank r.src))).kernelsToWrite ∧
      (buildKernelSourceAndHeaderFiles gp outputPath results).validKernelCount
        = (buildKernelSourceAndHeaderFiles gp outputPath
            (results.filter (fun r => !pyBlank r.src))).validKernelCount) ∧
    (∀ name : String,
      name ∈ (buildKernelSourceAndHeaderFiles gp outputPath
          results).errMap.map Prod.fst
        ↔ ∃ r ∈ results, r.kernelName = name ∧ r.err ≠ 0) := by
  obtain ⟨hF, hK, hC⟩ := buildFiles_foldl_filter gp outputPath results
    ⟨[], [], [], 0⟩ ⟨[], [], [], 0⟩ rfl rfl rfl
  constructor
  · exact ensureKernelFile_congr gp outputPath _ _ hF hK hC
  · intro name
    unfold buildKernelSourceAndHeaderFiles
    rw [ensureKernelFile_errMap]
    have := buildFiles_errMap_mem gp outputPath results ⟨[], [], [], 0⟩ name
    simpa using this

/-- Witness for c9_blank_kernels at one concrete result list containing a
blank-source successful kernel, a blank-source failing kernel and a
non-blank kernel. -/
theorem c9_blank_kernels_witness :
    (buildKernelSourceAndHeaderFiles ⟨true, 1, false⟩ "out"
        [⟨0, " ", "h", "a", none⟩, ⟨3, "", "h", "b", none⟩,
         ⟨0, "x", "h", "c", none⟩]).files
      = (buildKernelSourceAndHeaderFiles ⟨true, 1, false⟩ "out"
          ([⟨0, " ", "h", "a", none⟩, ⟨3, "", "h", "b", none⟩,
            ⟨0, "x", "h", "c", none⟩].filter
              (fun r => !pyBlank r.src))).files :=
  (c9_blank_kernels ⟨true, 1, false⟩ "out"
    [⟨0, " ", "h", "a", none⟩, ⟨3, "", "h", "b", none⟩,
     ⟨0, "x", "h", "c", none⟩]).1.1

/-! # Claims C2, C3, C4: writeSolutionsAndKernels (lines 236-384)

The parallel generation phase is modelled by a function gen from kernels to
BuildResults (results = kernels.map gen pairs each result with its
originating kernel index, as ParallelMap2 over processKernelSource does).
File writing, prepAsm, the helper-kernel writing loop and the external
toolchain invocation are I/O and out of the claims; the embedded function
computes the removal cascade, the abort decisions and the data handed to
the file/toolchain stages. -/

/-- List.remove semantics: python list.remove(x) deletes the first element
equal to x; removing every element of (l.filter p) from l, in order, leaves
exactly the elements failing p. -/
theorem foldl_erase_cons_of_ne {α : Type} [DecidableEq α] (a : α)
    (rs : List α) (h : ∀ r ∈ rs, r ≠ a) :
    ∀ t : List α, rs.foldl List.erase (a :: t) = a :: rs.foldl List.erase t := by
  induction rs with
  | nil => intro t; rfl
  | cons r rest ih =>
    intro t
    rw [List.foldl_cons, List.foldl_cons]
    have hra : r ≠ a := h r (List.mem_cons_self _ _)
    have herase : (a :: t).erase r = a :: t.erase r := by
      apply List.erase_cons_tail
      simp [hra]
      intro hcontra
      exact hra hcontra.symm
    rw [herase]
    exact ih (fun x hx => h x (List.mem_cons_of_mem _ hx)) (t.erase r)

theorem foldl_erase_filter {α : Type} [DecidableEq α] (p : α → Bool)
    (l : List α) :
    (l.filter p).foldl List.erase l = l.filter (fun a => !p a) := by
  induction l with
  | nil => rfl
  | cons a t ih =>
    rw [List.filter_cons, List.filter_cons]
    by_cases hp : p a = true
    · simp only [hp, if_true, Bool.not_true, Bool.false_eq_true, if_false]
      rw [List.foldl_cons, List.erase_cons_head]
      exact ih
    · have hp2 : p a = false := by
        cases hx : p a
        · rfl
        · exact absurd hx hp
      simp only [hp2, Bool.false_eq_true, if_false, Bool.not_false, if_true]
      rw [foldl_erase_cons_of_ne a (t.filter p) ?hne t, ih]
      case hne =>
        intro r hr hcontra
        subst hcontra
        have := List.of_mem_filter hr
        rw [hp2] at this
        exact Bool.false_ne_true this

theorem zip_map_self {α β : Type} (f : α → β) (l : List α) :
    l.zip (l.map f) = l.map (fun a => (a, f a)) := by
  induction l with
  | nil => rfl
  | cons a t ih => simp [ih]

/-- The sentinel-carrying pairs of the enumeration loop, projected to the
kernels: removeKernels equals the fatal kernels in kernel order. -/
theorem removeKernels_eq (gen : Kernel → BuildResult) (kernels : List Kernel) :
    ((kernels.zip (kernels.map gen)).filter
        (fun kr => kr.2.err == -2)).map Prod.fst
      = kernels.filter (fun k => (gen k).err == -2) := by
  rw [zip_map_self]
  induction kernels with
  | nil => rfl
  | cons k ks ih =>
    simp only [List.map_cons, List.filter_cons]
    by_cases h : ((gen k).err == -2) = true
    · simp only [h, if_true, List.map_cons, ih]
    · have h2 : ((gen k).err == -2) = false := by
        cases hx : ((gen k).err == -2)
        · rfl
        · exact absurd hx h
      simp only [h2, Bool.false_eq_true, if_false, ih]

/-- removeResults equals the fatal results in result order. -/
theorem removeResults_eq (gen : Kernel → BuildResult) (kernels : List Kernel) :
    ((kernels.zip (kernels.map gen)).filter
        (fun kr => kr.2.err == -2)).map Prod.snd
      = (kernels.map gen).filter (fun r => r.err == -2) := by
  rw [zip_map_self]
  induction kernels with
  | nil => rfl
  | cons k ks ih =>
    simp only [List.map_cons, List.filter_cons]
    by_cases h : ((gen k).err == -2) = true
    · simp only [h, if_true, List.map_cons, ih]
    · have h2 : ((gen k).err == -2) = false := by
        cases hx : ((gen k).err == -2)
        · rfl
        · exact absurd hx h
      simp only [h2, Bool.false_eq_true, if_false, ih]

/-- Abort outcomes of writeSolutionsAndKernels: the generation-failure
abort carries the reported (SolutionIndex, SolutionNameMin) identities. -/
inductive WriteError where
  | genFailure (report : List (Nat × String))
  | compileFailure
deriving DecidableEq, Repr

/-- Successful outcome of writeSolutionsAndKernels: the surviving kernel,
solution and result collections, the error dictionary, the planned file
groups and the kernels still eligible for compilation. -/
structure WriteOutput where
  kernels : List Kernel
  solutions : List Solution
  results : List BuildResult
  errMap : List (String × Int)
  files : List (String × List FileEntry)
  kernelsToBuild : List Kernel
deriving DecidableEq, Repr

/-- writeSolutionsAndKernels (lines 236-384), as the removal cascade and
abort logic of lines 280-322 around buildKernelSourceAndHeaderFiles.
The enumeration of results mirrors lines 284-294 (zip pairs each result
with its kernel), removal mirrors lines 297-309 (list.remove as erase),
the fail-fast abort mirrors lines 295-296, and the tolerant filter /
compilation-failure abort mirror lines 313-322. -/
def writeSolutionsAndKernels (gp : GlobalParams) (outputPath : String)
    (solutions : List Solution) (kernels : List Kernel)
    (gen : Kernel → BuildResult) (errorTolerant : Bool) :
    Except WriteError WriteOutput :=
  let results := kernels.map gen
  let fatal := (kernels.zip results).filter (fun kr => kr.2.err == -2)
  let removeKernels := fatal.map Prod.fst
  let removeKernelNames := pyDedup (removeKernels.map Kernel.kKey)
  let removeResults := fatal.map Prod.snd
  if 0 < removeKernels.length ∧ errorTolerant = false then
    .error (.genFailure (removeKernels.map
      (fun k => (k.solutionIndex, k.solutionNameMin))))
  else
    let kernels1 := removeKernels.foldl List.erase kernels
    let removeSolutions := solutions.filter
      (fun s => s.kernels.any (fun k => removeKernelNames.contains k.kKey))
    let solutions1 := removeSolutions.foldl List.erase solutions
    let results1 := removeResults.foldl List.erase results
    let bst := buildKernelSourceAndHeaderFiles gp outputPath results1
    if errorTolerant = true then
      .ok ⟨kernels1, solutions1, results1, bst.errMap, bst.files,
        kernels1.filter
          (fun k => !(bst.errMap.map Prod.fst).contains k.kernelName)⟩
    else if 0 < bst.errMap.length then .error .compileFailure
    else .ok ⟨kernels1, solutions1, results1, bst.errMap, bst.files, kernels1⟩

/-- The kernel keys queued for solution-side cascade: the deduplicated
getKeyNoInternalArgs keys of the kernels whose generation result carried
the fatal sentinel. -/
def removedKernelKeys (gen : Kernel → BuildResult) (kernels : List Kernel) :
    List String :=
  pyDedup ((kernels.filter (fun k => (gen k).err == -2)).map Kernel.kKey)

/-- Surviving kernels after the cascade. -/
def survivingKernels (gen : Kernel → BuildResult) (kernels : List Kernel) :
    List Kernel :=
  kernels.filter (fun k => !((gen k).err == -2))

/-- Surviving results after the cascade. -/
def survivingResults (gen : Kernel → BuildResult) (kernels : List Kernel) :
    List BuildResult :=
  (kernels.map gen).filter (fun r => !(r.err == -2))

/-- Surviving solutions after the cascade. -/
def survivingSolutions (gen : Kernel → BuildResult) (kernels : List Kernel)
    (solutions : List Solution) : List Solution :=
  solutions.filter (fun s => !(s.kernels.any
    (fun k => (removedKernelKeys gen kernels).contains k.kKey)))

/-- In error-tolerant mode writeSolutionsAndKernels always completes, with
the three collections cut down to the survivors. -/
theorem writeSAK_tolerant_eq (gp : GlobalParams) (outputPath : String)
    (solutions : List Solution) (kernels : List Kernel)
    (gen : Kernel → BuildResult) :
    writeSolutionsAndKernels gp outputPath solutions kernels gen true
      = .ok ⟨survivingKernels gen kernels,
             survivingSolutions gen kernels solutions,
             survivingResults gen kernels,
             (buildKernelSourceAndHeaderFiles gp outputPath
               (survivingResults gen kernels)).errMap,
             (buildKernelSourceAndHeaderFiles gp outputPath
               (survivingResults gen kernels)).files,
             (survivingKernels gen kernels).filter
               (fun k => !(((buildKernelSourceAndHeaderFiles gp outputPath
                 (survivingResults gen kernels)).errMap.map
                   Prod.fst).contains k.kernelName))⟩ := by
  simp only [writeSolutionsAndKernels]
  rw [if_neg (by simp)]
  rw [if_pos trivial]
  rw [removeKernels_eq, removeResults_eq]
  rw [foldl_erase_filter, foldl_erase_filter, foldl_erase_filter]
  rfl

/-- In non-tolerant mode, completion implies every generation result was
error-free. -/
theorem writeSAK_nontolerant_ok (gp : GlobalParams) (outputPath : String)
    (solutions : List Solution) (kernels : List Kernel)
    (gen : Kernel → BuildResult) (res : WriteOutput)
    (h : writeSolutionsAndKernels gp outputPath solutions kernels gen false
      = .ok res) :
    ∀ k ∈ kernels, (gen k).err = 0 := by
  simp only [writeSolutionsAndKernels] at h
  rw [removeKernels_eq, removeResults_eq] at h
  by_cases hfat : 0 < (kernels.filter (fun k => (gen k).err == -2)).length
  · rw [if_pos ⟨by simpa using hfat, trivial⟩] at h
    exact absurd h (by simp)
  · rw [if_neg (by simp [hfat])] at h
    rw [if_neg (by simp)] at h
    rw [foldl_erase_filter] at h
    have hfilter : kernels.filter (fun k => (gen k).err == -2) = [] := by
      rcases Nat.eq_zero_or_pos
          (kernels.filter (fun k => (gen k).err == -2)).length with h0 | hpos
      · exact List.length_eq_zero.mp h0
      · exact absurd hpos hfat
    by_cases herr : 0 < (buildKernelSourceAndHeaderFiles gp outputPath
        ((kernels.map gen).filter (fun r => !(r.err == -2)))).errMap.length
    · rw [if_pos herr] at h
      exact absurd h (by simp)
    · intro k hk
      by_contra hne
      have hkfat : ((gen k).err == -2) = false := by
        cases hx : ((gen k).err == -2)
        · rfl
        · exfalso
          have hmemf : k ∈ kernels.filter (fun k => (gen k).err == -2) :=
            List.mem_filter.mpr ⟨hk, hx⟩
          rw [hfilter] at hmemf
          simp at hmemf
      have hmem : gen k ∈ (kernels.map gen).filter
          (fun r => !(r.err == -2)) := by
        apply List.mem_filter.mpr
        exact ⟨List.mem_map_of_mem gen hk, by simp [hkfat]⟩
      have hkey : (gen k).kernelName
          ∈ (buildKernelSourceAndHeaderFiles gp outputPath
            ((kernels.map gen).filter
              (fun r => !(r.err == -2)))).errMap.map Prod.fst := by
        unfold buildKernelSourceAndHeaderFiles
        rw [ensureKernelFile_errMap]
        exact (buildFiles_errMap_mem gp outputPath _ ⟨[], [], [], 0⟩ _).mpr
          (Or.inr ⟨gen k, hmem, rfl, hne⟩)
      apply herr
      apply List.length_pos.mpr
      intro hnil
      rw [hnil] at hkey
      simp at hkey

/-- Claim C3: in error-tolerant mode the three removals are mutually
consistent: after completion no surviving solution references a removed
kernel key, no surviving BuildResult carries the fatal sentinel (every
removed kernel's result is fatal and all fatal results are removed), and
no surviving kernel's generation result is fatal. -/
theorem c3_cascade_consistency (gp : GlobalParams) (outputPath : String)
    (solutions : List Solution) (kernels : List Kernel)
    (gen : Kernel → BuildResult) (res : WriteOutput)
    (h : writeSolutionsAndKernels gp outputPath solutions kernels gen true
      = .ok res) :
    (∀ s ∈ res.solutions, ∀ k ∈ s.kernels,
        k.kKey ∉ removedKernelKeys gen kernels) ∧
      (∀ r ∈ res.results, r.err ≠ -2) ∧
      (∀ k ∈ res.kernels, (gen k).err ≠ -2) := by
  rw [writeSAK_tolerant_eq] at h
  have hres := Except.ok.inj h
  subst hres
  refine ⟨?_, ?_, ?_⟩
  · intro s hs k hk hcontra
    have hpred := (List.mem_filter.mp hs).2
    have hany : (s.kernels.any (fun k =>
        (removedKernelKeys gen kernels).contains k.kKey)) = false := by
      simpa using hpred
    exact (List.any_eq_false.mp hany) k hk
      ((contains_iff_mem _ _).mpr hcontra)
  · intro r hr
    have hpred := (List.mem_filter.mp hr).2
    have : (r.err == -2) = false := by simpa using hpred
    exact beq_eq_false_iff_ne.mp this
  · intro k hk
    have hpred := (List.mem_filter.mp hk).2
    have : ((gen k).err == -2) = false := by simpa using hpred
    exact beq_eq_false_iff_ne.mp this

/-- Concrete generator for the c3 witness scenario: kernel key k1 fails
with the fatal sentinel, everything else succeeds. -/
def c3wGen : Kernel → BuildResult :=
  fun k => if k.kKey = "k1" then ⟨-2, "", "", "n1", none⟩
    else ⟨0, "x", "h", "n2", none⟩

/-- Concrete kernel list for the c3 witness scenario. -/
def c3wKernels : List Kernel :=
  [⟨"k1", "n1", 0, "s0", none⟩, ⟨"k2", "n2", 1, "s1", none⟩]

/-- Concrete solution list for the c3 witness scenario: one solution per
kernel. -/
def c3wSolutions : List Solution :=
  [⟨0, [⟨"k1", "n1", 0, "s0", none⟩], []⟩,
   ⟨1, [⟨"k2", "n2", 1, "s1", none⟩], []⟩]

/-- The tolerant-mode output of the c3 witness scenario. -/
def c3wRes : WriteOutput :=
  ⟨survivingKernels c3wGen c3wKernels,
   survivingSolutions c3wGen c3wKernels c3wSolutions,
   survivingResults c3wGen c3wKernels,
   (buildKernelSourceAndHeaderFiles ⟨true, 1, false⟩ "o"
     (survivingResults c3wGen c3wKernels)).errMap,
   (buildKernelSourceAndHeaderFiles ⟨true, 1, false⟩ "o"
     (survivingResults c3wGen c3wKernels)).files,
   (survivingKernels c3wGen c3wKernels).filter
     (fun k => !(((buildKernelSourceAndHeaderFiles ⟨true, 1, false⟩ "o"
       (survivingResults c3wGen c3wKernels)).errMap.map
         Prod.fst).contains k.kernelName))⟩

/-- Witness for c3_cascade_consistency at a concrete tolerant run with one
fatal kernel, one healthy kernel and one solution referencing each. -/
theorem c3_cascade_consistency_witness :
    (∀ s ∈ c3wRes.solutions, ∀ k ∈ s.kernels,
        k.kKey ∉ removedKernelKeys c3wGen c3wKernels) ∧
      (∀ r ∈ c3wRes.results, r.err ≠ -2) ∧
      (∀ k ∈ c3wRes.kernels, (c3wGen k).err ≠ -2) :=
  c3_cascade_consistency ⟨true, 1, false⟩ "o" c3wSolutions c3wKernels c3wGen
    c3wRes (writeSAK_tolerant_eq ⟨true, 1, false⟩ "o" c3wSolutions c3wKernels
      c3wGen)

/-- Counterexample to claim C2: in error-tolerant mode a kernel whose
generation result carries a plain nonzero error code (1, from a
RuntimeError, not the fatal sentinel -2) is excluded from compilation but
its owning solution is NOT dropped: the run completes with the solution
retained although its kernel's BuildResult carries an error. -/
theorem c2_counterexample :
    (writeSolutionsAndKernels ⟨true, 1, false⟩ "o"
          [⟨7, [⟨"k", "n", 3, "s", none⟩], []⟩] [⟨"k", "n", 3, "s", none⟩]
          (fun _ => ⟨1, "x", "h", "n", none⟩) true).map WriteOutput.solutions
        = .ok [⟨7, [⟨"k", "n", 3, "s", none⟩], []⟩] ∧
      ((fun _ => (⟨1, "x", "h", "n", none⟩ : BuildResult))
        (⟨"k", "n", 3, "s", none⟩ : Kernel)).err ≠ 0 := by
  constructor
  · rfl
  · decide

/-- Claim C2 (amended): after writeSolutionsAndKernels completes, no kernel
reachable from a retained solution has a fatal (-2) generation result: for
every surviving solution, every kernel it owns and every generated kernel
sharing its kernelKey, that kernel's result did not carry the fatal
sentinel; and in non-error-tolerant mode completion implies every
generation result carried no error at all.  (Kernels with other nonzero
error codes are excluded from compilation in tolerant mode, but their
owning solutions are retained.) -/
theorem c2_retained_solutions_amended (gp : GlobalParams)
    (outputPath : String) (solutions : List Solution) (kernels : List Kernel)
    (gen : Kernel → BuildResult) (errorTolerant : Bool) (res : WriteOutput)
    (h : writeSolutionsAndKernels gp outputPath solutions kernels gen
      errorTolerant = .ok res) :
    (∀ s ∈ res.solutions, ∀ k ∈ s.kernels, ∀ kk ∈ kernels,
        kk.kKey = k.kKey → (gen kk).err ≠ -2) ∧
      (errorTolerant = false → ∀ kk ∈ kernels, (gen kk).err = 0) := by
  cases errorTolerant with
  | false =>
    have hall := writeSAK_nontolerant_ok gp outputPath solutions kernels gen
      res h
    constructor
    · intro s hs k hk kk hkk heq
      rw [hall kk hkk]
      decide
    · intro _ kk hkk
      exact hall kk hkk
  | true =>
    rw [writeSAK_tolerant_eq] at h
    have hres := Except.ok.inj h
    subst hres
    constructor
    · intro s hs k hk kk hkkmem heq hfatal
      have hkeymem : kk.kKey ∈ removedKernelKeys gen kernels := by
        unfold removedKernelKeys
        rw [pyDedup_mem_iff]
        exact List.mem_map_of_mem Kernel.kKey
          (List.mem_filter.mpr ⟨hkkmem, by simp [hfatal]⟩)
      have hpred := (List.mem_filter.mp hs).2
      have hany : (s.kernels.any (fun k =>
          (removedKernelKeys gen kernels).contains k.kKey)) = false := by
        simpa using hpred
      exact (List.any_eq_false.mp hany) k hk
        ((contains_iff_mem _ _).mpr (heq ▸ hkeymem))
    · intro hcontra
      exact absurd hcontra (by simp)

/-- Witness for c2_retained_solutions_amended at a concrete non-tolerant
run in which every kernel generates cleanly. -/
theorem c2_retained_solutions_amended_witness :
    (∀ s ∈ (WriteOutput.mk [⟨"k", "n", 3, "s", none⟩]
          [⟨7, [⟨"k", "n", 3, "s", none⟩], []⟩]
          [⟨0, "x", "h", "n", none⟩] []
          [(pyJoin (normcase "o") "Kernels", [⟨0, "x", "h", "n"⟩])]
          [⟨"k", "n", 3, "s", none⟩]).solutions,
        ∀ k ∈ s.kernels, ∀ kk ∈ [(⟨"k", "n", 3, "s", none⟩ : Kernel)],
          kk.kKey = k.kKey →
          ((fun _ => (⟨0, "x", "h", "n", none⟩ : BuildResult)) kk).err ≠ -2) ∧
      (false = false → ∀ kk ∈ [(⟨"k", "n", 3, "s", none⟩ : Kernel)],
        ((fun _ => (⟨0, "x", "h", "n", none⟩ : BuildResult)) kk).err = 0) :=
  c2_retained_solutions_amended ⟨true, 1, false⟩ "o"
    [⟨7, [⟨"k", "n", 3, "s", none⟩], []⟩] [⟨"k", "n", 3, "s", none⟩]
    (fun _ => ⟨0, "x", "h", "n", none⟩) false
    (WriteOutput.mk [⟨"k", "n", 3, "s", none⟩]
      [⟨7, [⟨"k", "n", 3, "s", none⟩], []⟩]
      [⟨0, "x", "h", "n", none⟩] []
      [(pyJoin (normcase "o") "Kernels", [⟨0, "x", "h", "n"⟩])]
      [⟨"k", "n", 3, "s", none⟩]) (by rfl)

/-- Claim C4: in non-error-tolerant mode a single fatal generation result
aborts the whole build: writeSolutionsAndKernels returns the
generation-failure abort carrying every failing kernel's identity
(SolutionIndex, SolutionNameMin), and no successful output (hence no
artifact set) is produced. -/
theorem c4_failfast_abort (gp : GlobalParams) (outputPath : String)
    (solutions : List Solution) (kernels : List Kernel)
    (gen : Kernel → BuildResult)
    (h : ∃ k ∈ kernels, (gen k).err = -2) :
    writeSolutionsAndKernels gp outputPath solutions kernels gen false
        = .error (.genFailure
            ((kernels.filter (fun k => (gen k).err == -2)).map
              (fun k => (k.solutionIndex, k.solutionNameMin)))) ∧
      ∀ res : WriteOutput,
        writeSolutionsAndKernels gp outputPath solutions kernels gen false
          ≠ .ok res := by
  have hlen : 0 < (kernels.filter (fun k => (gen k).err == -2)).length := by
    obtain ⟨k, hk, hfatal⟩ := h
    exact List.length_pos.mpr
      (List.ne_nil_of_mem (List.mem_filter.mpr ⟨hk, by simp [hfatal]⟩))
  have habort : writeSolutionsAndKernels gp outputPath solutions kernels gen
      false = .error (.genFailure
        ((kernels.filter (fun k => (gen k).err == -2)).map
          (fun k => (k.solutionIndex, k.solutionNameMin)))) := by
    simp only [writeSolutionsAndKernels]
    rw [removeKernels_eq]
    rw [if_pos ⟨hlen, by trivial⟩]
  refine ⟨habort, ?_⟩
  intro res hok
  rw [habort] at hok
  exact Except.noConfusion hok

/-- Witness for c4_failfast_abort at a concrete run with one fatal kernel. -/
theorem c4_failfast_abort_witness :
    writeSolutionsAndKernels ⟨true, 1, false⟩ "o" []
          [⟨"k", "n", 5, "s", none⟩]
          (fun _ => ⟨-2, "", "", "n", none⟩) false
        = .error (.genFailure
            (([(⟨"k", "n", 5, "s", none⟩ : Kernel)].filter
              (fun k => ((fun _ => (⟨-2, "", "", "n", none⟩ : BuildResult))
                k).err == -2)).map
                  (fun k => (k.solutionIndex, k.solutionNameMin)))) ∧
      ∀ res : WriteOutput,
        writeSolutionsAndKernels ⟨true, 1, false⟩ "o" []
          [⟨"k", "n", 5, "s", none⟩]
          (fun _ => ⟨-2, "", "", "n", none⟩) false ≠ .ok res :=
  c4_failfast_abort ⟨true, 1, false⟩ "o" [] [⟨"k", "n", 5, "s", none⟩]
    (fun _ => ⟨-2, "", "", "n", none⟩)
    ⟨⟨"k", "n", 5, "s", none⟩, by decide⟩

/-! # Claim C5: code-object reconciliation (TensileCreateLibrary, lines
964-977)

setA is the set of actually produced code-object files, setB the planned
source-library plus assembly-library path set; both are normcased before
comparison.  The failed assertions are modelled as errors carrying the
offending path sets. -/

/-- The two reconciliation failures: an unexpected code-object file
(sanityCheck0) and a missing expected code-object file (sanityCheck1). -/
inductive SanityError where
  | unexpected (paths : List String)
  | missing (paths : List String)
deriving DecidableEq, Repr

/-- The reconciliation step of TensileCreateLibrary (lines 964-977):
setA = set(map(normcase, set(codeObjectFiles))),
setB = set(map(normcase, set(sourceLibPaths + asmLibPaths))),
assert setA - setB empty (always), assert setB - setA empty unless
GenerateSourcesAndExit. -/
def reconcileArtifacts (codeObjectFiles sourceLibPaths asmLibPaths :
    List String) (generateSourcesAndExit : Bool) : Except SanityError Unit :=
  let setA := pyDedup (codeObjectFiles.map normcase)
  let setB := pyDedup ((sourceLibPaths ++ asmLibPaths).map normcase)
  let sanityCheck0 := setA.filter (fun p => !setB.contains p)
  let sanityCheck1 := setB.filter (fun p => !setA.contains p)
  if 0 < sanityCheck0.length then .error (.unexpected sanityCheck0)
  else if generateSourcesAndExit = false ∧ 0 < sanityCheck1.length then
    .error (.missing sanityCheck1)
  else .ok ()

theorem filter_not_contains_eq_nil {α : Type} [DecidableEq α]
    (A B : List α) :
    A.filter (fun p => !B.contains p) = [] ↔ ∀ p ∈ A, p ∈ B := by
  rw [List.filter_eq_nil_iff]
  constructor
  · intro h p hp
    have h2 := h p hp
    by_cases hc : B.contains p = true
    · exact (contains_iff_mem _ _).mp hc
    · exfalso
      apply h2
      simp only [Bool.not_eq_true']
      cases hx : B.contains p
      · rfl
      · exact absurd hx hc
  · intro h p hp
    simp [contains_iff_mem, h p hp]

theorem pyDedup_subset_iff {α : Type} [DecidableEq α] (A B : List α) :
    (∀ p ∈ pyDedup A, p ∈ pyDedup B) ↔ ∀ p ∈ A, p ∈ B := by
  constructor
  · intro h p hp
    exact (pyDedup_mem_iff _ _).mp (h p ((pyDedup_mem_iff _ _).mpr hp))
  · intro h p hp
    exact (pyDedup_mem_iff _ _).mpr (h p ((pyDedup_mem_iff _ _).mp hp))

theorem map_subset_iff_normcase (xs ys : List String) :
    (∀ p ∈ xs.map normcase, p ∈ ys.map normcase)
      ↔ ∀ p ∈ xs, normcase p ∈ ys.map normcase := by
  constructor
  · intro h p hp
    exact h (normcase p) (List.mem_map_of_mem normcase hp)
  · intro h p hp
    obtain ⟨q, hq, rfl⟩ := List.mem_map.mp hp
    exact h q hq

/-- Claim C5: reconciliation compares the produced code-object set against
the planned source plus assembly library set under normcase; success holds
exactly when every produced path is planned and (except in
generate-sources-and-exit mode) every planned path was produced; an
unexpected path always yields the unexpected-artifact failure; a missing
path yields the missing-artifact failure only outside
generate-sources-and-exit mode. -/
theorem c5_reconciliation (codeObjectFiles sourceLibPaths asmLibPaths :
    List String) (generateSourcesAndExit : Bool) :
    (reconcileArtifacts codeObjectFiles sourceLibPaths asmLibPaths
          generateSourcesAndExit = .ok ()
        ↔ (∀ p ∈ codeObjectFiles,
              normcase p ∈ (sourceLibPaths ++ asmLibPaths).map normcase) ∧
            (generateSourcesAndExit = true ∨
              ∀ q ∈ sourceLibPaths ++ asmLibPaths,
                normcase q ∈ codeObjectFiles.map normcase)) ∧
      ((∃ p ∈ codeObjectFiles,
          normcase p ∉ (sourceLibPaths ++ asmLibPaths).map normcase) →
        ∃ ps, reconcileArtifacts codeObjectFiles sourceLibPaths asmLibPaths
          generateSourcesAndExit = .error (.unexpected ps)) ∧
      (generateSourcesAndExit = false →
        (∀ p ∈ codeObjectFiles,
          normcase p ∈ (sourceLibPaths ++ asmLibPaths).map normcase) →
        (∃ q ∈ sourceLibPaths ++ asmLibPaths,
          normcase q ∉ codeObjectFiles.map normcase) →
        ∃ qs, reconcileArtifacts codeObjectFiles sourceLibPaths asmLibPaths
          generateSourcesAndExit = .error (.missing qs)) := by
  have hsub0 : ((pyDedup (codeObjectFiles.map normcase)).filter
      (fun p => !(pyDedup ((sourceLibPaths ++ asmLibPaths).map
        normcase)).contains p) = []
    ↔ ∀ p ∈ codeObjectFiles,
        normcase p ∈ (sourceLibPaths ++ asmLibPaths).map normcase) := by
    rw [filter_not_contains_eq_nil, pyDedup_subset_iff,
      map_subset_iff_normcase]
  have hsub1 : ((pyDedup ((sourceLibPaths ++ asmLibPaths).map
      normcase)).filter
      (fun p => !(pyDedup (codeObjectFiles.map normcase)).contains p) = []
    ↔ ∀ q ∈ sourceLibPaths ++ asmLibPaths,
        normcase q ∈ codeObjectFiles.map normcase) := by
    rw [filter_not_contains_eq_nil, pyDedup_subset_iff,
      map_subset_iff_normcase]
  simp only [reconcileArtifacts]
  by_cases h0 : 0 < ((pyDedup (codeObjectFiles.map normcase)).filter
      (fun p => !(pyDedup ((sourceLibPaths ++ asmLibPaths).map
        normcase)).contains p)).length
  · rw [if_pos h0]
    have hne : ¬ ∀ p ∈ codeObjectFiles,
        normcase p ∈ (sourceLibPaths ++ asmLibPaths).map normcase := by
      intro hall
      rw [← hsub0] at hall
      rw [hall] at h0
      simp at h0
    refine ⟨?_, ?_, ?_⟩
    · constructor
      · intro h
        exact absurd h (by simp)
      · rintro ⟨hall, _⟩
        exact absurd hall hne
    · intro _
      exact ⟨_, rfl⟩
    · intro _ hall _
      exact absurd hall hne
  · rw [if_neg h0]
    have hnil : (pyDedup (codeObjectFiles.map normcase)).filter
        (fun p => !(pyDedup ((sourceLibPaths ++ asmLibPaths).map
          normcase)).contains p) = [] := by
      rcases Nat.eq_zero_or_pos ((pyDedup (codeObjectFiles.map
          normcase)).filter
          (fun p => !(pyDedup ((sourceLibPaths ++ asmLibPaths).map
            normcase)).contains p)).length with hz | hp
      · exact List.length_eq_zero.mp hz
      · exact absurd hp h0
    have hall0 : ∀ p ∈ codeObjectFiles,
        normcase p ∈ (sourceLibPaths ++ asmLibPaths).map normcase :=
      hsub0.mp hnil
    by_cases h1 : generateSourcesAndExit = false ∧
        0 < ((pyDedup ((sourceLibPaths ++ asmLibPaths).map
          normcase)).filter
          (fun p => !(pyDedup (codeObjectFiles.map
            normcase)).contains p)).length
    · rw [if_pos h1]
      obtain ⟨hmode, hlen1⟩ := h1
      have hne1 : ¬ ∀ q ∈ sourceLibPaths ++ asmLibPaths,
          normcase q ∈ codeObjectFiles.map normcase := by
        intro hall
        rw [← hsub1] at hall
        rw [hall] at hlen1
        simp at hlen1
      refine ⟨?_, ?_, ?_⟩
      · constructor
        · intro h
          exact absurd h (by simp)
        · rintro ⟨_, hor⟩
          rcases hor with hmode2 | hall1
          · rw [hmode] at hmode2
            exact absurd hmode2 (by simp)
          · exact absurd hall1 hne1
      · rintro ⟨p, hp, hnp⟩
        exact absurd (hall0 p hp) hnp
      · intro _ _ _
        exact ⟨_, rfl⟩
    · rw [if_neg h1]
      refine ⟨?_, ?_, ?_⟩
      · constructor
        · intro _
          refine ⟨hall0, ?_⟩
          cases hmode : generateSourcesAndExit
          · right
            apply hsub1.mp
            rcases Nat.eq_zero_or_pos ((pyDedup ((sourceLibPaths ++
                asmLibPaths).map normcase)).filter
                (fun p => !(pyDedup (codeObjectFiles.map
                  normcase)).contains p)).length with hz | hp
            · exact List.length_eq_zero.mp hz
            · exact absurd ⟨hmode, hp⟩ h1
          · left
            rfl
        · intro _
          rfl
      · rintro ⟨p, hp, hnp⟩
        exact absurd (hall0 p hp) hnp
      · intro hmode _ hmiss
        obtain ⟨q, hq, hnq⟩ := hmiss
        exfalso
        apply h1
        refine ⟨hmode, ?_⟩
        apply List.length_pos.mpr
        intro hnil1
        exact hnq ((hsub1.mp hnil1) q hq)

/-- Witness for c5_reconciliation: a produced path differing from its
planned path only in case reconciles successfully. -/
theorem c5_reconciliation_witness :
    reconcileArtifacts ["lib/A.hsaco"] ["lib/a.hsaco"] [] false = .ok () :=
  ((c5_reconciliation ["lib/A.hsaco"] ["lib/a.hsaco"] [] false).1).mpr
    (by decide)

/-! # Claim C10: processKernelSource (lines 72-90)

The kernel writer methods may raise RuntimeError; the except RuntimeError
handler returns (1, "", "", kernelName, None), which reads the local
variable kernelName.  Python raises UnboundLocalError when a local is
read before its first assignment; the try body therefore threads the
binding state of kernelName explicitly. -/

/-- The Python exceptions reachable in processKernelSource. -/
inductive PyExc where
  | runtimeError
  | unboundLocalError
deriving DecidableEq, Repr

/-- The kernel writer boundary as processKernelSource consumes it; each
method can raise (KernelWriterAssembly is outside this file's source). -/
structure KernelWriterModel where
  setTensileInstructions : Except PyExc Unit
  getKernelFileBase : Kernel → Except PyExc String
  getSourceFileString : Kernel → Except PyExc (Int × String)
  getHeaderFileString : Kernel → Except PyExc String

/-- Reading a Python local: raises UnboundLocalError if not yet bound. -/
def readLocal (v : Option String) : Except PyExc String :=
  match v with
  | some s => .ok s
  | none => .error .unboundLocalError

/-- processKernelSource (lines 72-90): run the try body, threading the
local kernelName (none = unbound); on RuntimeError run the handler
return (1, "", "", kernelName, None), whose read of kernelName may itself
raise; other exceptions propagate.  The filename component is
kernel._state.get("codeObjectFile", None). -/
def processKernelSource (w : KernelWriterModel) (kernel : Kernel) :
    Except PyExc (Int × String × String × String × Option String) :=
  let body : Except (PyExc × Option String)
      (Int × String × String × String × Option String) :=
    match w.setTensileInstructions with
    | .error e => .error (e, none)
    | .ok _ =>
      match w.getKernelFileBase kernel with
      | .error e => .error (e, none)
      | .ok kernelName =>
        match w.getSourceFileString kernel with
        | .error e => .error (e, some kernelName)
        | .ok (err, src) =>
          match w.getHeaderFileString kernel with
          | .error e => .error (e, some kernelName)
          | .ok header =>
            .ok (err, src, header, kernelName, kernel.codeObjectFile)
  match body with
  | .ok t => .ok t
  | .error (.runtimeError, kernelNameLocal) =>
    (readLocal kernelNameLocal).map (fun kn => (1, "", "", kn, none))
  | .error (e, _) => .error e

/-- Claim C10: processKernelSource returns the documented 5-tuple with
error code 1 only when the kernel file base name was computed before the
RuntimeError; if getKernelFileBase itself raises RuntimeError, the except
handler references the unbound local kernelName, so the call raises
(UnboundLocalError) instead of returning. -/
theorem c10_unbound_kernelName (w : KernelWriterModel) (kernel : Kernel) :
    (w.setTensileInstructions = .ok () →
      w.getKernelFileBase kernel = .error .runtimeError →
      processKernelSource w kernel = .error .unboundLocalError) ∧
    (∀ name : String,
      w.setTensileInstructions = .ok () →
      w.getKernelFileBase kernel = .ok name →
      w.getSourceFileString kernel = .error .runtimeError →
      processKernelSource w kernel = .ok (1, "", "", name, none)) := by
  constructor
  · intro h1 h2
    simp only [processKernelSource, h1, h2]
    rfl
  · intro name h1 h2 h3
    simp only [processKernelSource, h1, h2, h3]
    rfl

/-- Witness for c10_unbound_kernelName: a writer whose getKernelFileBase
raises RuntimeError makes the call raise UnboundLocalError; a writer
failing only in getSourceFileString returns the documented tuple. -/
theorem c10_unbound_kernelName_witness :
    processKernelSource
        ⟨.ok (), fun _ => .error .runtimeError, fun _ => .ok (0, ""),
         fun _ => .ok ""⟩ ⟨"k", "n", 0, "s", none⟩
      = .error .unboundLocalError ∧
    processKernelSource
        ⟨.ok (), fun _ => .ok "base", fun _ => .error .runtimeError,
         fun _ => .ok ""⟩ ⟨"k", "n", 0, "s", none⟩
      = .ok (1, "", "", "base", none) :=
  ⟨(c10_unbound_kernelName
      ⟨.ok (), fun _ => .error .runtimeError, fun _ => .ok (0, ""),
       fun _ => .ok ""⟩ ⟨"k", "n", 0, "s", none⟩).1 rfl rfl,
   (c10_unbound_kernelName
      ⟨.ok (), fun _ => .ok "base", fun _ => .error .runtimeError,
       fun _ => .ok ""⟩ ⟨"k", "n", 0, "s", none⟩).2 "base" rfl rfl rfl⟩
